import Mathlib

/-!
# Verification of the sumai_agent3 recommendation scorer and location resolver

Shallow embedding of the algorithmic core of the repository:
* `backend/agents/recommendation_agent.py` — the multi-axis weighted
  similarity scorer and ranking pipeline (criteria mode and reference mode);
* `backend/agents/location_disambiguation_agent.py` — the location
  ambiguity resolver (grouping by administrative region, categorical
  distance estimation, clarification verdicts);
* `backend/services/database_service.py` — the price normalization helpers.

Python scalar values that flow through the scorer are modelled by `PyVal`
(None, numbers, strings); Python numbers (int and float) are modelled
uniformly as rationals `ℚ` (the code does only exact small-scale
arithmetic in the claims under study).  Operations that can raise a
Python exception (attribute access on non-dicts, `float()` coercion,
ordering comparisons across types, `in` on non-strings, division by
zero) return `Except Unit`; the source's `try/except` blocks become
explicit catches.  Strings are `List Char`.
-/

namespace Sumai

/-- A Python scalar value as it appears in property / requirement dicts:
`None`, a number (`int`/`float` collapsed to `ℚ`), or a string. -/
inductive PyVal where
  | pynone : PyVal
  | num : ℚ → PyVal
  | str : List Char → PyVal
deriving DecidableEq

/-- A Python object passed as one candidate in the candidate list: normally a
dict (modelled as an association list in insertion order), but nothing in the
source enforces that, so a bare scalar is also possible. -/
inductive PyObj where
  | dict : List (String × PyVal) → PyObj
  | scalar : PyVal → PyObj
deriving DecidableEq

/-- Property / requirement dictionaries: association lists keyed by field name. -/
abbrev PyDict := List (String × PyVal)

/-- `d.get(k, dflt)` on a Python dict: first binding of `k`, else the default. -/
def dictGet (d : PyDict) (k : String) (dflt : PyVal) : PyVal :=
  match d.find? (fun kv => kv.1 = k) with
  | some kv => kv.2
  | none => dflt

/-- `o.get(k, dflt)` on an arbitrary object: dicts answer, anything else
raises `AttributeError`. -/
def pyGet (o : PyObj) (k : String) (dflt : PyVal) : Except Unit PyVal :=
  match o with
  | .dict d => .ok (dictGet d k dflt)
  | .scalar _ => .error ()

/-- Python truthiness of a scalar: `None`, `0` and `""` are falsy. -/
def truthy : PyVal → Bool
  | .pynone => false
  | .num q => if q = 0 then false else true
  | .str s => if s = [] then false else true

/-- Python `==` between scalars: numbers compare numerically, strings
character-wise, cross-type comparison is `False` (never raises). -/
def pyEq : PyVal → PyVal → Bool
  | .pynone, .pynone => true
  | .num a, .num b => if a = b then true else false
  | .str a, .str b => if a = b then true else false
  | _, _ => false

/-- Contiguous-substring test (Python `needle in haystack` on strings;
the empty needle matches everywhere). -/
def isSubstring (n : List Char) (h : List Char) : Bool :=
  match h with
  | [] => if n = [] then true else false
  | _ :: t => n.isPrefixOf h || isSubstring n t

/-- Python `needle in hay` for scalars: defined for strings (substring
test), raises `TypeError` otherwise. -/
def pyIn (needle hay : PyVal) : Except Unit Bool :=
  match needle, hay with
  | .str n, .str h => .ok (isSubstring n h)
  | _, _ => .error ()

/-- Python `a <= b` for scalars: numbers compare, any other combination
raises `TypeError` (string bounds against numeric prices, etc.). -/
def pyLE : PyVal → PyVal → Except Unit Bool
  | .num a, .num b => .ok (if a ≤ b then true else false)
  | _, _ => .error ()

/-- Python `a < b` for scalars, same domain as `pyLE`. -/
def pyLT : PyVal → PyVal → Except Unit Bool
  | .num a, .num b => .ok (if a < b then true else false)
  | _, _ => .error ()

/-- Using a scalar as a number in arithmetic: numbers pass through,
everything else raises `TypeError`. -/
def pyNumVal : PyVal → Except Unit ℚ
  | .num q => .ok q
  | _ => .error ()

/-- Python division: raises `ZeroDivisionError` on a zero denominator. -/
def pyDiv (a b : ℚ) : Except Unit ℚ :=
  if b = 0 then .error () else .ok (a / b)

/-- Fold a digit run into a natural number. -/
def digitsToNat (ds : List Char) : ℕ :=
  ds.foldl (fun n c => 10 * n + (c.toNat - 48)) 0

/-- Strip leading and trailing whitespace (Python `str.strip()`). -/
def stripWs (s : List Char) : List Char :=
  ((s.dropWhile Char.isWhitespace).reverse.dropWhile Char.isWhitespace).reverse

/-- Python `float(string)`: optional sign, then `digits`, `digits.digits`,
`digits.` or `.digits` (the exotic forms — exponents, `inf`, underscores —
do not occur in the data under study and are treated as parse failures). -/
def parseFloatChars (s : List Char) : Except Unit ℚ :=
  let t := stripWs s
  let core := match t with
    | '+' :: r => some (false, r)
    | '-' :: r => some (true, r)
    | r => some (false, r)
  match core with
  | some (neg, body) =>
    let intPart := body.takeWhile Char.isDigit
    let rest := body.dropWhile Char.isDigit
    let mag : Except Unit ℚ :=
      match rest with
      | [] =>
        if intPart = [] then .error ()
        else .ok (digitsToNat intPart : ℚ)
      | '.' :: frac =>
        if frac.all Char.isDigit && !(intPart = [] && frac = []) then
          .ok ((digitsToNat intPart : ℚ) + (digitsToNat frac : ℚ) / (10 : ℚ) ^ frac.length)
        else .error ()
      | _ => .error ()
    match mag with
    | .ok m => .ok (if neg then -m else m)
    | .error e => .error e
  | none => .error ()

/-- Python `int(string)`: optional sign and a pure digit run. -/
def parseIntChars (s : List Char) : Except Unit ℤ :=
  let t := stripWs s
  match t with
  | '-' :: r =>
    if r ≠ [] ∧ r.all Char.isDigit then .ok (-(digitsToNat r : ℤ)) else .error ()
  | '+' :: r =>
    if r ≠ [] ∧ r.all Char.isDigit then .ok ((digitsToNat r : ℤ)) else .error ()
  | r =>
    if r ≠ [] ∧ r.all Char.isDigit then .ok ((digitsToNat r : ℤ)) else .error ()

/-- Python `float(x)` on a scalar: numbers pass through, strings are parsed,
`float(None)` raises `TypeError`. -/
def pyFloat : PyVal → Except Unit ℚ
  | .num q => .ok q
  | .str s => parseFloatChars s
  | .pynone => .error ()

/-- The numeric rendering used by `str(x)`. Integers render exactly; the
non-integer rendering is not load-bearing for any property proved below
(floats are modelled as rationals, so Python's shortest-round-trip float
repr has no exact counterpart). -/
def pyRepr (q : ℚ) : List Char :=
  if q.den = 1 then (toString q.num).toList else (toString q).toList

/-- Python `str(x)` on a scalar (total, never raises). -/
def pyStr : PyVal → List Char
  | .str s => s
  | .num q => pyRepr q
  | .pynone => "None".toList

/-- `str(x).upper()`. ASCII letters are upcased; everything else is fixed. -/
def pyStrUpper (v : PyVal) : List Char := (pyStr v).map Char.toUpper

/-- The `except Exception: return 0.5` wrapper that guards every per-axis
similarity computation in the scorer. -/
def catch05 : Except Unit ℚ → ℚ
  | .ok v => v
  | .error _ => 1/2

/-! ## Criteria-mode axis similarities (`RecommendationAgent`) -/

/-- Body of `_calculate_location_similarity` (lines 159–191): +0.4 for a
prefecture match, +0.4 for a city match, +0.8 for an exact station match
else +0.6 for a substring station match, capped at 1.0. -/
def calculate_location_similarity_inner (prop : PyObj) (req : PyDict) : Except Unit ℚ := do
  let propPref ← pyGet prop "prefecture" (.str [])
  let propCity ← pyGet prop "city" (.str [])
  let propStation ← pyGet prop "station_name" (.str [])
  let reqPref := dictGet req "prefecture" (.str [])
  let reqCity := dictGet req "city" (.str [])
  let reqStation := dictGet req "station" (.str [])
  let score : ℚ := 0
  let score := if truthy reqPref && pyEq propPref reqPref then score + 0.4 else score
  let score := if truthy reqCity && pyEq propCity reqCity then score + 0.4 else score
  let score ←
    if truthy reqStation && pyEq propStation reqStation then
      pure (score + 0.8)
    else if truthy reqStation then do
      let b ← pyIn reqStation propStation
      pure (if b then score + 0.6 else score)
    else
      pure score
  return min score 1.0

/-- `_calculate_location_similarity` with its catch-all. -/
def calculate_location_similarity (prop : PyObj) (req : PyDict) : ℚ :=
  catch05 (calculate_location_similarity_inner prop req)

/-- Body of `_calculate_price_similarity` (lines 193–241).  Non-positive
prices and the no-bound case are neutral 0.5; in-range prices score 1.0;
out-of-range prices decay linearly in the fractional overshoot relative to
the violated bound, floored at 0.  Python's chained comparison
`price_min <= prop_price <= price_max` short-circuits, so the upper bound
is only touched when the first comparison succeeds. -/
def calculate_price_similarity_inner (prop : PyObj) (req : PyDict) : Except Unit ℚ := do
  let pv ← pyGet prop "price" (.num 0)
  let propPrice ← pyFloat pv
  if propPrice ≤ 0 then return 0.5
  let priceMin := dictGet req "price_min" .pynone
  let priceMax := dictGet req "price_max" .pynone
  if priceMin = .pynone ∧ priceMax = .pynone then return 0.5
  if truthy priceMin && truthy priceMax then
    let b1 ← pyLE priceMin (.num propPrice)
    let within ← if b1 then pyLE (.num propPrice) priceMax else pure false
    if within then return 1.0
    let belowMin ← pyLT (.num propPrice) priceMin
    if belowMin then
      let mn ← pyNumVal priceMin
      let dr ← pyDiv (mn - propPrice) mn
      return max 0.0 (1.0 - dr)
    else
      let mx ← pyNumVal priceMax
      let dr ← pyDiv (propPrice - mx) mx
      return max 0.0 (1.0 - dr)
  else if truthy priceMax then
    let ble ← pyLE (.num propPrice) priceMax
    if ble then return 1.0
    let mx ← pyNumVal priceMax
    let dr ← pyDiv (propPrice - mx) mx
    return max 0.0 (1.0 - dr)
  else if truthy priceMin then
    let bge ← pyLE priceMin (.num propPrice)
    if bge then return 1.0
    let mn ← pyNumVal priceMin
    let dr ← pyDiv (mn - propPrice) mn
    return max 0.0 (1.0 - dr)
  else
    return 0.5

/-- `_calculate_price_similarity` with its catch-all. -/
def calculate_price_similarity (prop : PyObj) (req : PyDict) : ℚ :=
  catch05 (calculate_price_similarity_inner prop req)

/-- `_extract_room_count`: the first contiguous digit run in the layout
string (leftmost match of `(\d+)`), or 0 when there is none.  The inner
`try/except` can never fire, so the function is total. -/
def extract_room_count (layout : List Char) : ℤ :=
  match layout.dropWhile (fun c => !c.isDigit) with
  | [] => 0
  | rest => (digitsToNat (rest.takeWhile Char.isDigit) : ℤ)

/-- Python `s.split(sep)` for a one-character separator. -/
def splitOnChar (sep : Char) (s : List Char) : List (List Char) :=
  match s with
  | [] => [[]]
  | c :: rest =>
    let tail := splitOnChar sep rest
    if c = sep then [] :: tail
    else match tail with
      | [] => [[c]]
      | t :: ts => (c :: t) :: ts

/-- Worker for `str_replace`, structurally recursive on a fuel argument:
every step consumes at least one character of the remaining string, so a
fuel of the string's length never runs out (the `0, s => s` fallback is
unreachable). -/
def str_replace_go (pat rep : List Char) : ℕ → List Char → List Char
  | _, [] => []
  | 0, s => s
  | fuel + 1, c :: rest =>
    if pat ≠ [] ∧ pat.isPrefixOf (c :: rest) then
      rep ++ str_replace_go pat rep fuel ((c :: rest).drop pat.length)
    else
      c :: str_replace_go pat rep fuel rest

/-- Python `s.replace(old, new)`: all non-overlapping occurrences, left to
right.  (The empty-pattern corner case of Python is not exercised by the
source and is treated as a no-op.) -/
def str_replace (s pat rep : List Char) : List Char :=
  str_replace_go pat rep s.length s

/-- Body of `_calculate_layout_similarity` (lines 243–289): exact match,
comma-separated alternatives, the `+` ("this many rooms or more") rule, and
the room-count proximity fallback. -/
def calculate_layout_similarity_inner (prop : PyObj) (req : PyDict) : Except Unit ℚ := do
  let lv ← pyGet prop "layout" (.str [])
  let propLayout := pyStrUpper lv
  let reqRaw := dictGet req "layout" (.str [])
  if !truthy reqRaw then return 0.5
  let reqLayout := pyStrUpper reqRaw
  if propLayout = reqLayout then return 1.0
  if isSubstring [','] reqLayout then
    let alts := (splitOnChar ',' reqLayout).map stripWs
    if propLayout ∈ alts then return 1.0
  if isSubstring ['+'] reqLayout then
    let baseLayout := str_replace reqLayout ['+'] []
    let baseRooms := extract_room_count baseLayout
    let propRooms := extract_room_count propLayout
    if propRooms ≥ baseRooms then return 1.0
    else return max 0.0 (1.0 - ((baseRooms - propRooms) : ℚ) * 0.3)
  let reqRooms := extract_room_count reqLayout
  let propRooms := extract_room_count propLayout
  if reqRooms = propRooms then return 0.8
  else if |reqRooms - propRooms| = 1 then return 0.6
  else return 0.3

/-- `_calculate_layout_similarity` with its catch-all. -/
def calculate_layout_similarity (prop : PyObj) (req : PyDict) : ℚ :=
  catch05 (calculate_layout_similarity_inner prop req)

/-- Body of `_calculate_area_similarity` (lines 301–344): same shape as the
price axis, except the above-max one-sided case halves the penalty. -/
def calculate_area_similarity_inner (prop : PyObj) (req : PyDict) : Except Unit ℚ := do
  let av ← pyGet prop "area" (.num 0)
  let propArea ← pyFloat av
  if propArea ≤ 0 then return 0.5
  let areaMin := dictGet req "area_min" .pynone
  let areaMax := dictGet req "area_max" .pynone
  if areaMin = .pynone ∧ areaMax = .pynone then return 0.5
  if truthy areaMin && truthy areaMax then
    let b1 ← pyLE areaMin (.num propArea)
    let within ← if b1 then pyLE (.num propArea) areaMax else pure false
    if within then return 1.0
    let belowMin ← pyLT (.num propArea) areaMin
    if belowMin then
      let mn ← pyNumVal areaMin
      let dr ← pyDiv (mn - propArea) mn
      return max 0.0 (1.0 - dr)
    else
      let mx ← pyNumVal areaMax
      let dr ← pyDiv (propArea - mx) mx
      return max 0.0 (1.0 - dr)
  else if truthy areaMax then
    let ble ← pyLE (.num propArea) areaMax
    if ble then return 1.0
    let mx ← pyNumVal areaMax
    let dr ← pyDiv (propArea - mx) mx
    return max 0.0 (1.0 - dr * 0.5)
  else if truthy areaMin then
    let bge ← pyLE areaMin (.num propArea)
    if bge then return 1.0
    let mn ← pyNumVal areaMin
    let dr ← pyDiv (mn - propArea) mn
    return max 0.0 (1.0 - dr)
  else
    return 0.5

/-- `_calculate_area_similarity` with its catch-all. -/
def calculate_area_similarity (prop : PyObj) (req : PyDict) : ℚ :=
  catch05 (calculate_area_similarity_inner prop req)

/-- Body of `_calculate_age_similarity` (lines 346–365): 1.0 within
`age_max`, else a linear penalty in the fractional excess (a zero
`age_max` makes the division raise, which the catch turns into 0.5). -/
def calculate_age_similarity_inner (prop : PyObj) (req : PyDict) : Except Unit ℚ := do
  let av ← pyGet prop "age" (.num 0)
  let propAge ← pyFloat av
  let ageMax := dictGet req "age_max" .pynone
  if ageMax = .pynone then return 0.5
  let ble ← pyLE (.num propAge) ageMax
  if ble then return 1.0
  let m ← pyNumVal ageMax
  let er ← pyDiv (propAge - m) m
  return max 0.0 (1.0 - er)

/-- `_calculate_age_similarity` with its catch-all. -/
def calculate_age_similarity (prop : PyObj) (req : PyDict) : ℚ :=
  catch05 (calculate_age_similarity_inner prop req)

/-- Body of `_calculate_walk_time_similarity` (lines 367–385): identical
decay shape to the age axis, keyed on `walk_time_max`, with sentinel 999
for a missing walk time. -/
def calculate_walk_time_similarity_inner (prop : PyObj) (req : PyDict) : Except Unit ℚ := do
  let wv ← pyGet prop "walk_time" (.num 999)
  let propWalk ← pyFloat wv
  let walkMax := dictGet req "walk_time_max" .pynone
  if walkMax = .pynone then return 0.5
  let ble ← pyLE (.num propWalk) walkMax
  if ble then return 1.0
  let m ← pyNumVal walkMax
  let er ← pyDiv (propWalk - m) m
  return max 0.0 (1.0 - er)

/-- `_calculate_walk_time_similarity` with its catch-all. -/
def calculate_walk_time_similarity (prop : PyObj) (req : PyDict) : ℚ :=
  catch05 (calculate_walk_time_similarity_inner prop req)

/-- Body of `_calculate_commute_time_similarity` (lines 387–407): neutral
unless both commute fields are set, then a coarse substring match between
the commute location and the candidate city. -/
def calculate_commute_time_similarity_inner (prop : PyObj) (req : PyDict) : Except Unit ℚ := do
  let loc := dictGet req "commute_location" .pynone
  let tm := dictGet req "commute_time_max" .pynone
  if !(truthy loc && truthy tm) then return 0.5
  let city ← pyGet prop "city" (.str [])
  let b1 ← pyIn loc city
  if b1 then return 1.0
  let b2 ← pyIn city loc
  if b2 then return 1.0
  return 0.3

/-- `_calculate_commute_time_similarity` with its catch-all. -/
def calculate_commute_time_similarity (prop : PyObj) (req : PyDict) : ℚ :=
  catch05 (calculate_commute_time_similarity_inner prop req)

/-! ## Weights, per-candidate scoring and ranking -/

/-- `self.feature_weights` from `RecommendationAgent.__init__` (lines 21–29),
in dict insertion order. -/
def feature_weights : List (String × ℚ) :=
  [("location", 0.25), ("price", 0.20), ("layout", 0.15), ("area", 0.15),
   ("age", 0.10), ("walk_time", 0.10), ("commute_time", 0.05)]

/-- The per-axis similarity map built for one candidate in
`_calculate_similarity_scores` (lines 94–102). -/
structure AxisScores where
  location : ℚ
  price : ℚ
  layout : ℚ
  area : ℚ
  age : ℚ
  walk_time : ℚ
  commute_time : ℚ
deriving DecidableEq

/-- The seven criteria-mode axis similarities for one candidate. -/
def axis_scores (prop : PyObj) (req : PyDict) : AxisScores where
  location := calculate_location_similarity prop req
  price := calculate_price_similarity prop req
  layout := calculate_layout_similarity prop req
  area := calculate_area_similarity prop req
  age := calculate_age_similarity prop req
  walk_time := calculate_walk_time_similarity prop req
  commute_time := calculate_commute_time_similarity prop req

/-- `total_score = sum(similarity_scores[key] * feature_weights[key])`
(lines 104–108): the weighted sum over always all seven axes. -/
def total_score (s : AxisScores) : ℚ :=
  s.location * 0.25 + s.price * 0.20 + s.layout * 0.15 + s.area * 0.15 +
    s.age * 0.10 + s.walk_time * 0.10 + s.commute_time * 0.05

/-- A scored candidate: `property_data.copy()` with the added
`similarity_score` and `detailed_scores` keys (lines 110–112), modelled as
the copied field list plus the two added values. -/
structure ScoredEntry where
  data : PyDict
  score : ℚ
  detailed : AxisScores
deriving DecidableEq

/-- The body of the per-candidate `try` in `_calculate_similarity_scores`
(lines 92–114).  The seven axis similarities are total thanks to their own
catch-alls; the only remaining way to raise is `property_data.copy()` on a
candidate that is not a dict. -/
def score_candidate (prop : PyObj) (req : PyDict) : Except Unit ScoredEntry :=
  let sims := axis_scores prop req
  let total := total_score sims
  match prop with
  | .dict d => .ok ⟨d, total, sims⟩
  | .scalar _ => .error ()

/-- `_calculate_similarity_scores` (lines 85–120): score each candidate,
skipping (with `continue`) any candidate whose scoring raises. -/
def calculate_similarity_scores (props : List PyObj) (req : PyDict) : List ScoredEntry :=
  match props with
  | [] => []
  | p :: rest =>
    match score_candidate p req with
    | .ok e => e :: calculate_similarity_scores rest req
    | .error _ => calculate_similarity_scores rest req

/-- One step of Python's stable descending sort by `x["similarity_score"]`:
insert an element (which preceded the already-sorted elements in the input)
before the first entry with a score not larger than its own. -/
def insort_desc (x : ScoredEntry) : List ScoredEntry → List ScoredEntry
  | [] => [x]
  | y :: ys => if x.score < y.score then y :: insort_desc x ys else x :: y :: ys

/-- Stable descending sort by score.  `sorted(..., key=..., reverse=True)`
in Python is stable, and a stable sort's output is uniquely determined by
the key order, so this insertion sort computes the same list. -/
def sort_desc : List ScoredEntry → List ScoredEntry
  | [] => []
  | x :: xs => insort_desc x (sort_desc xs)

/-- The ranking pipeline of `find_matching_properties` (lines 43–50):
score all candidates, sort descending by total score, truncate to `limit`.
The candidate list itself is supplied by the external database collaborator
and the trailing `_format_recommendations` is a one-to-one presentation map,
so both stay outside the ranking model. -/
def find_matching_properties (props : List PyObj) (req : PyDict) (limit : ℕ) : List ScoredEntry :=
  (sort_desc (calculate_similarity_scores props req)).take limit

/-! ## Reference-mode axis similarities (scoring against another property).
The reference record comes out of `_normalize_property_features` and is
always a dict, so it is modelled as a `PyDict`. -/

/-- Body of `_calculate_location_similarity_reference` (lines 410–427):
0.5 per matching prefecture/city, no station term and no cap. -/
def calculate_location_similarity_reference_inner (prop : PyObj) (ref : PyDict) :
    Except Unit ℚ := do
  let propPref ← pyGet prop "prefecture" (.str [])
  let propCity ← pyGet prop "city" (.str [])
  let refPref := dictGet ref "prefecture" (.str [])
  let refCity := dictGet ref "city" (.str [])
  let score : ℚ := 0
  let score := if truthy refPref && pyEq propPref refPref then score + 0.5 else score
  let score := if truthy refCity && pyEq propCity refCity then score + 0.5 else score
  return score

/-- `_calculate_location_similarity_reference` with its catch-all. -/
def calculate_location_similarity_reference (prop : PyObj) (ref : PyDict) : ℚ :=
  catch05 (calculate_location_similarity_reference_inner prop ref)

/-- Body of `_calculate_price_similarity_reference` (lines 429–444):
±10% tolerance, else linear decay in the relative difference. -/
def calculate_price_similarity_reference_inner (prop : PyObj) (ref : PyDict) :
    Except Unit ℚ := do
  let pv ← pyGet prop "price" (.num 0)
  let propPrice ← pyFloat pv
  let refPrice ← pyFloat (dictGet ref "price" (.num 0))
  if propPrice ≤ 0 ∨ refPrice ≤ 0 then return 0.5
  let dr ← pyDiv |propPrice - refPrice| refPrice
  if dr ≤ 0.1 then return 1.0
  return max 0.0 (1.0 - dr)

/-- `_calculate_price_similarity_reference` with its catch-all. -/
def calculate_price_similarity_reference (prop : PyObj) (ref : PyDict) : ℚ :=
  catch05 (calculate_price_similarity_reference_inner prop ref)

/-- Body of `_calculate_layout_similarity_reference` (lines 446–465):
exact match, else room-count proximity. -/
def calculate_layout_similarity_reference_inner (prop : PyObj) (ref : PyDict) :
    Except Unit ℚ := do
  let lv ← pyGet prop "layout" (.str [])
  let propLayout := pyStrUpper lv
  let refLayout := pyStrUpper (dictGet ref "layout" (.str []))
  if propLayout = refLayout then return 1.0
  let propRooms := extract_room_count propLayout
  let refRooms := extract_room_count refLayout
  if propRooms = refRooms then return 0.8
  else if |propRooms - refRooms| = 1 then return 0.6
  else return 0.3

/-- `_calculate_layout_similarity_reference` with its catch-all. -/
def calculate_layout_similarity_reference (prop : PyObj) (ref : PyDict) : ℚ :=
  catch05 (calculate_layout_similarity_reference_inner prop ref)

/-- Body of `_calculate_area_similarity_reference` (lines 467–482):
±20% tolerance, else linear decay. -/
def calculate_area_similarity_reference_inner (prop : PyObj) (ref : PyDict) :
    Except Unit ℚ := do
  let av ← pyGet prop "area" (.num 0)
  let propArea ← pyFloat av
  let refArea ← pyFloat (dictGet ref "area" (.num 0))
  if propArea ≤ 0 ∨ refArea ≤ 0 then return 0.5
  let dr ← pyDiv |propArea - refArea| refArea
  if dr ≤ 0.2 then return 1.0
  return max 0.0 (1.0 - dr)

/-- `_calculate_area_similarity_reference` with its catch-all. -/
def calculate_area_similarity_reference (prop : PyObj) (ref : PyDict) : ℚ :=
  catch05 (calculate_area_similarity_reference_inner prop ref)

/-- Body of `_calculate_age_similarity_reference` (lines 484–496):
difference of at most 5 years scores 1.0, else `1 - diff/30` floored at 0. -/
def calculate_age_similarity_reference_inner (prop : PyObj) (ref : PyDict) :
    Except Unit ℚ := do
  let av ← pyGet prop "age" (.num 0)
  let propAge ← pyFloat av
  let refAge ← pyFloat (dictGet ref "age" (.num 0))
  let diffYears := |propAge - refAge|
  if diffYears ≤ 5 then return 1.0
  return max 0.0 (1.0 - diffYears / 30)

/-- `_calculate_age_similarity_reference` with its catch-all. -/
def calculate_age_similarity_reference (prop : PyObj) (ref : PyDict) : ℚ :=
  catch05 (calculate_age_similarity_reference_inner prop ref)

/-- Body of `_calculate_walk_time_similarity_reference` (lines 498–510):
difference of at most 3 minutes scores 1.0, else `1 - diff/15` floored at 0. -/
def calculate_walk_time_similarity_reference_inner (prop : PyObj) (ref : PyDict) :
    Except Unit ℚ := do
  let wv ← pyGet prop "walk_time" (.num 999)
  let propWalk ← pyFloat wv
  let refWalk ← pyFloat (dictGet ref "walk_time" (.num 999))
  let diffTime := |propWalk - refWalk|
  if diffTime ≤ 3 then return 1.0
  return max 0.0 (1.0 - diffTime / 15)

/-- `_calculate_walk_time_similarity_reference` with its catch-all. -/
def calculate_walk_time_similarity_reference (prop : PyObj) (ref : PyDict) : ℚ :=
  catch05 (calculate_walk_time_similarity_reference_inner prop ref)

/-- The per-axis similarity map of `_calculate_reference_similarity`
(lines 131–139); the commute axis is the fixed neutral 0.5. -/
def axis_scores_reference (prop : PyObj) (ref : PyDict) : AxisScores where
  location := calculate_location_similarity_reference prop ref
  price := calculate_price_similarity_reference prop ref
  layout := calculate_layout_similarity_reference prop ref
  area := calculate_area_similarity_reference prop ref
  age := calculate_age_similarity_reference prop ref
  walk_time := calculate_walk_time_similarity_reference prop ref
  commute_time := 0.5

/-- The per-candidate body of `_calculate_reference_similarity`
(lines 128–151): same `feature_weights`, same weighted sum, same
copy-and-annotate step as the criteria mode. -/
def score_candidate_reference (prop : PyObj) (ref : PyDict) : Except Unit ScoredEntry :=
  let sims := axis_scores_reference prop ref
  let total := total_score sims
  match prop with
  | .dict d => .ok ⟨d, total, sims⟩
  | .scalar _ => .error ()

/-! ## Price normalization (`DatabaseService`) -/

/-- `except: return 0.0` wrapper of the parsers. -/
def catch00 : Except Unit ℚ → ℚ
  | .ok v => v
  | .error _ => 0

/-- `_parse_price` (database_service.py lines 441–450): strip `万円` and
commas, parse as float; empty or unparseable input yields 0.0. -/
def parse_price (s : List Char) : ℚ :=
  if s = [] then 0
  else
    let clean := stripWs (str_replace (str_replace s "万円".toList []) [','] [])
    if clean ≠ [] then catch00 (parseFloatChars clean) else 0

/-- Python `round(x, 1)` with round-half-to-even (exact on the rationals;
the binary-float artefacts of CPython's `round` are out of scope). -/
def roundHalfEven (q : ℚ) : ℤ :=
  let f := ⌊q⌋
  let r := q - (f : ℚ)
  if r < 1/2 then f
  else if r > 1/2 then f + 1
  else if f % 2 = 0 then f else f + 1

/-- `round(·, 1)`. -/
def pyRound1 (q : ℚ) : ℚ := (roundHalfEven (q * 10) : ℚ) / 10

/-- `_parse_buy_price` (database_service.py lines 452–461): parse the raw
currency string as an integer, divide by 10000 and round to one decimal;
empty or unparseable input yields 0.0. -/
def parse_buy_price (s : List Char) : ℚ :=
  if s = [] then 0
  else
    match parseIntChars s with
    | .ok n => pyRound1 ((n : ℚ) / 10000)
    | .error _ => 0

/-! ## Location disambiguation agent (`LocationDisambiguationAgent`),
modelled without a Google Maps API key, so distance estimation always uses
`_calculate_distances_simple`. -/

/-- The fixed 47-prefecture lookup of `_extract_prefecture` (lines 76–91),
in source order. -/
def prefecture_names : List (List Char) :=
  ["北海道", "青森県", "岩手県", "宮城県", "秋田県", "山形県", "福島県",
   "茨城県", "栃木県", "群馬県", "埼玉県", "千葉県", "東京都", "神奈川県",
   "新潟県", "富山県", "石川県", "福井県", "山梨県", "長野県", "岐阜県",
   "静岡県", "愛知県", "三重県", "滋賀県", "京都府", "大阪府", "兵庫県",
   "奈良県", "和歌山県", "鳥取県", "島根県", "岡山県", "広島県", "山口県",
   "徳島県", "香川県", "愛媛県", "高知県", "福岡県", "佐賀県", "長崎県",
   "熊本県", "大分県", "宮崎県", "鹿児島県", "沖縄県"].map String.toList

/-- `_extract_prefecture`: the first prefecture name of the fixed list that
occurs in the address, else `不明` ("unknown"). -/
def extract_prefecture (addr : List Char) : List Char :=
  match prefecture_names.find? (fun p => isSubstring p addr) with
  | some p => p
  | none => "不明".toList

/-- A terminator character of the city regex `[市区町村]`. -/
def isCityChar (c : Char) : Bool := c = '市' || c = '区' || c = '町' || c = '村'

/-- A character excluded by the class `[^都道府県]`. -/
def isPrefMarkChar (c : Char) : Bool := c = '都' || c = '道' || c = '府' || c = '県'

/-- Leftmost-shortest match of `([^都道府県]*?[市区町村])` (`re.search`):
the run of non-`都道府県` characters since the last such marker, up to and
including the first `市区町村` character.  `acc` holds that run reversed. -/
def extract_city_aux (acc : List Char) : List Char → List Char
  | [] => []
  | c :: rest =>
    if isCityChar c then acc.reverse ++ [c]
    else if isPrefMarkChar c then extract_city_aux [] rest
    else extract_city_aux (c :: acc) rest

/-- `_extract_city` (lines 93–106).  Its second pattern
`([^都道府県]*?郡[^市区町村]*?[町村])` needs a `町`/`村` character and is
therefore only tried when the string has no `市区町村` character at all —
it can never match, so only the first pattern is modelled. -/
def extract_city (addr : List Char) : List Char := extract_city_aux [] addr

/-- The grouping key of `_group_addresses_by_region` (lines 57–74):
`f"{prefecture}"`, extended with `f" {city}"` when a city was extracted. -/
def region_key (addr : List Char) : List Char :=
  let pref := extract_prefecture addr
  let city := extract_city addr
  if city ≠ [] then pref ++ ' ' :: city else pref

/-- Insertion-ordered grouping: appending an address to its key's group,
creating the group at the end on first encounter (Python dict semantics). -/
def group_insert (groups : List (List Char × List (List Char))) (key : List Char)
    (addr : List Char) : List (List Char × List (List Char)) :=
  match groups with
  | [] => [(key, [addr])]
  | (k, as) :: rest =>
    if k = key then (k, as ++ [addr]) :: rest
    else (k, as) :: group_insert rest key addr

/-- `_group_addresses_by_region`. -/
def group_addresses_by_region (addrs : List (List Char)) :
    List (List Char × List (List Char)) :=
  addrs.foldl (fun gs a => group_insert gs (region_key a) a) []

/-- `region.split()[0]`: the prefecture part of a group key (keys never
start with whitespace and the prefecture part contains none). -/
def first_token (s : List Char) : List Char := s.takeWhile (fun c => c ≠ ' ')

/-- `if pref not in prefecture_list: prefecture_list.append(pref)` over a
list, preserving first-encounter order. -/
def dedup_append (xs : List (List Char)) : List (List Char) :=
  xs.foldl (fun acc p => if p ∈ acc then acc else acc ++ [p]) []

/-- The verdict returned by `analyze_location_ambiguity`: the
`needs_clarification` flag, the optional clarification message and the
`suggested_locations` keys. -/
structure AnalysisResult where
  needs_clarification : Bool
  message : Option (List Char)
  suggested_locations : List (List Char)
deriving DecidableEq

/-- One suggestion line `f"• {region}（{count}件）"`. -/
def suggestion_line (region : List Char) (count : ℕ) : List Char :=
  "• ".toList ++ region ++ "（".toList ++ (toString count).toList ++ "件）".toList

/-- `"\n".join(lines)`. -/
def join_lines : List (List Char) → List Char
  | [] => []
  | [x] => x
  | x :: xs => x ++ '\n' :: join_lines xs

/-- The clarification message of `_handle_multiple_prefectures`
(lines 117–122), listing each region key with its member count in
first-encountered order. -/
def multiple_prefecture_message (term : List Char)
    (groups : List (List Char × List (List Char))) : List Char :=
  "「".toList ++ term ++
    "」で複数の地域が見つかりました。より具体的な地域を教えてください。\n\n候補地域：\n".toList ++
    join_lines (groups.map (fun g => suggestion_line g.1 g.2.length))

/-- `_handle_multiple_prefectures` (lines 108–134). -/
def handle_multiple_prefectures (term : List Char)
    (groups : List (List Char × List (List Char))) : AnalysisResult :=
  let prefList := dedup_append (groups.map (fun g => first_token g.1))
  if prefList.length > 1 then
    ⟨true, some (multiple_prefecture_message term groups), groups.map (fun g => g.1)⟩
  else
    ⟨false, none, []⟩

/-- The categorical per-pair distance estimate of
`_calculate_distances_simple` (lines 161–167). -/
def estimate_distance (a1 a2 : List Char) : ℚ :=
  if extract_prefecture a1 ≠ extract_prefecture a2 then 50
  else if extract_city a1 ≠ extract_city a2 then 20
  else 5

/-- `_calculate_distances_simple` (lines 149–171): every unordered pair
`i < j`, in loop order. -/
def calculate_distances_simple :
    List (List Char) → List (List Char × List Char × ℚ)
  | [] => []
  | a :: rest =>
    rest.map (fun b => (a, b, estimate_distance a b)) ++ calculate_distances_simple rest

/-- `_has_distant_locations` (lines 213–216): at least 2 pairs further
apart than 10.0 km. -/
def has_distant_locations (ds : List (List Char × List Char × ℚ)) : Bool :=
  (ds.filter (fun d => if d.2.2 > 10 then true else false)).length ≥ 2

/-- The refinement message of `_suggest_area_refinement` (lines 218–232). -/
def refinement_message (term : List Char)
    (groups : List (List Char × List (List Char))) : List Char :=
  let suggestions :=
    (groups.filter (fun g => g.2.length > 0)).map
      (fun g => suggestion_line g.1 g.2.length)
  "「".toList ++ term ++
    "」で広範囲の物件が見つかりました（10km以上離れた物件が含まれています）。\n\nより具体的な地域名を教えてください：\n".toList ++
    join_lines (suggestions.take 5)

/-- `_suggest_area_refinement`. -/
def suggest_area_refinement (term : List Char)
    (groups : List (List Char × List (List Char))) : AnalysisResult :=
  ⟨true, some (refinement_message term groups), (groups.map (fun g => g.1)).take 5⟩

/-- `analyze_location_ambiguity` (lines 19–55), for an agent constructed
without a Google Maps API key, so `_calculate_distances` is always the
simple categorical estimate. -/
def analyze_location_ambiguity (term : List Char) (addrs : List (List Char)) :
    AnalysisResult :=
  if addrs = [] then ⟨false, none, []⟩
  else
    let groups := group_addresses_by_region addrs
    if groups.length > 1 then handle_multiple_prefectures term groups
    else if addrs.length ≥ 5 then
      let ds := calculate_distances_simple (addrs.take 10)
      if ds ≠ [] ∧ has_distant_locations ds then suggest_area_refinement term groups
      else ⟨false, none, []⟩
    else ⟨false, none, []⟩

/-! ## Auxiliary definitions for the statements of the claims -/

/-- A candidate record carrying just a numeric price. -/
def prop_of_price (p : ℚ) : PyObj := .dict [("price", .num p)]

/-- A requirement dict carrying the given numeric price bounds. -/
def req_of_price_bounds : Option ℚ → Option ℚ → PyDict
  | none, none => []
  | some m, none => [("price_min", .num m)]
  | none, some M => [("price_max", .num M)]
  | some m, some M => [("price_min", .num m), ("price_max", .num M)]

/-- The price-axis similarity as a function of a numeric candidate price
and optional numeric bounds. -/
def price_sim_q (p : ℚ) (mn mx : Option ℚ) : ℚ :=
  calculate_price_similarity (prop_of_price p) (req_of_price_bounds mn mx)

/-- A constraint-bound value is well formed when, if numeric, it is
nonnegative (absent, `None` and string bounds are unconstrained: the
scorer's own type errors already neutralize them). -/
def bound_ok : PyVal → Bool
  | .num q => decide (0 ≤ q)
  | _ => true

/-- All six numeric constraint bounds of a requirement set are nonnegative
when present. -/
def nonneg_bounds (req : PyDict) : Prop :=
  bound_ok (dictGet req "price_min" .pynone) = true ∧
  bound_ok (dictGet req "price_max" .pynone) = true ∧
  bound_ok (dictGet req "area_min" .pynone) = true ∧
  bound_ok (dictGet req "area_max" .pynone) = true ∧
  bound_ok (dictGet req "age_max" .pynone) = true ∧
  bound_ok (dictGet req "walk_time_max" .pynone) = true

/-- Membership in the unit interval. -/
def in_unit (q : ℚ) : Prop := 0 ≤ q ∧ q ≤ 1

/-- Whether a candidate object is a dict (scoring a non-dict raises at the
`property_data.copy()` step and the candidate is skipped). -/
def is_dict_obj : PyObj → Bool
  | .dict _ => true
  | .scalar _ => false

/-- All seven axis similarities lie in the unit interval. -/
def axes_in_unit (s : AxisScores) : Prop :=
  in_unit s.location ∧ in_unit s.price ∧ in_unit s.layout ∧ in_unit s.area ∧
  in_unit s.age ∧ in_unit s.walk_time ∧ in_unit s.commute_time

/-- The search term of the §8 two-prefecture example. -/
def kawasaki_term : List Char := "川崎".toList

/-- The §8 two-prefecture example: two Kawasaki-city addresses in Kanagawa
and two Kitakyushu-city addresses in Fukuoka. -/
def two_prefecture_addresses : List (List Char) :=
  ["神奈川県川崎市中原区上小田中1".toList,
   "神奈川県川崎市中原区上小田中2".toList,
   "福岡県北九州市小倉北区3".toList,
   "福岡県北九州市小倉北区4".toList]

/-- Five addresses in one prefecture (Kanagawa) spread over two cities
(Kawasaki and Yokohama): per the claimed categorical estimate, the six
cross-city pairs would be 20.0 km apart. -/
def single_prefecture_two_city_addresses : List (List Char) :=
  ["神奈川県川崎市中原区1".toList,
   "神奈川県川崎市中原区2".toList,
   "神奈川県川崎市中原区3".toList,
   "神奈川県横浜市西区4".toList,
   "神奈川県横浜市西区5".toList]

/-- Seven single-prefecture addresses over six cities, the sixth city
holding two members: the top-5-by-member-count group selection of the
claim and the first-5-in-order selection of the code disagree here. -/
def single_prefecture_many_city_addresses : List (List Char) :=
  ["神奈川県川崎市1".toList,
   "神奈川県横浜市2".toList,
   "神奈川県相模原市3".toList,
   "神奈川県厚木市4".toList,
   "神奈川県藤沢市5".toList,
   "神奈川県鎌倉市6".toList,
   "神奈川県鎌倉市7".toList]

/-! # Theorems

First the shared helper lemmas, then one theorem per claim (with its
counterexample and witness where required). -/

/-- If every successful value of a computation is in the unit interval, so
is its caught value (the catch substitutes 0.5). -/
lemma catch05_in_unit {e : Except Unit ℚ} (h : ∀ v, e = .ok v → in_unit v) :
    in_unit (catch05 e) := by
  cases e with
  | ok v => exact h v rfl
  | error u => exact ⟨by norm_num [catch05], by norm_num [catch05]⟩

/-- A caught computation that errors yields the neutral 0.5. -/
lemma catch05_error {e : Except Unit ℚ} (h : e = .error ()) : catch05 e = 1/2 := by
  rw [h]; rfl

lemma in_unit_half : in_unit (1/2 : ℚ) := ⟨by norm_num, by norm_num⟩

lemma in_unit_one : in_unit (1 : ℚ) := ⟨by norm_num, by norm_num⟩

/-- `max 0 (1 - d)` is in the unit interval whenever the penalty `d` is
nonnegative. -/
lemma in_unit_decay {d : ℚ} (h : 0 ≤ d) : in_unit (max 0 (1 - d)) := by
  constructor
  · exact le_max_left 0 (1 - d)
  · rw [max_le_iff]; constructor <;> linarith

/-- `min s 1` is in the unit interval whenever `s` is nonnegative. -/
lemma in_unit_min_one {s : ℚ} (h : 0 ≤ s) : in_unit (min s 1) := by
  constructor
  · exact le_min h (by norm_num)
  · exact min_le_right s 1

/-- Successful division means the denominator was nonzero. -/
lemma pyDiv_ok {a b r : ℚ} (h : pyDiv a b = .ok r) : b ≠ 0 ∧ r = a / b := by
  by_cases hb : b = 0
  · simp [pyDiv, hb] at h
  · simp [pyDiv, hb] at h
    exact ⟨hb, h.symm⟩

/-- Division by a nonzero denominator succeeds. -/
lemma pyDiv_ne {a b : ℚ} (h : b ≠ 0) : pyDiv a b = .ok (a / b) := by
  simp [pyDiv, h]

/-- C8: In reference mode, for candidates and references with numeric ages,
the age axis similarity is 1.0 when the absolute age difference is at most
5 years and `max 0 (1 - diff/30)` otherwise; in particular a difference of
5 scores 1.0 and a difference of 6 scores 0.8. -/
theorem C8_reference_age_similarity :
    (∀ (a b : ℚ) (dp dr : PyDict),
      dictGet dp "age" (.num 0) = .num a →
      dictGet dr "age" (.num 0) = .num b →
      calculate_age_similarity_reference (.dict dp) dr =
        (if |a - b| ≤ 5 then 1 else max 0 (1 - |a - b| / 30)))
    ∧ calculate_age_similarity_reference (.dict [("age", .num 10)]) [("age", .num 5)] = 1
    ∧ calculate_age_similarity_reference (.dict [("age", .num 11)]) [("age", .num 5)] = 0.8 := by
  refine ⟨?_,
    by norm_num [calculate_age_similarity_reference, calculate_age_similarity_reference_inner,
      catch05, pyGet, dictGet, pyFloat, List.find?, Bind.bind, Except.bind, Pure.pure,
      Except.pure],
    by norm_num [calculate_age_similarity_reference, calculate_age_similarity_reference_inner,
      catch05, pyGet, dictGet, pyFloat, List.find?, Bind.bind, Except.bind, Pure.pure,
      Except.pure]⟩
  intro a b dp dr ha hb
  simp only [calculate_age_similarity_reference, calculate_age_similarity_reference_inner,
    catch05, pyGet, dictGet, pyFloat, Bind.bind, Except.bind, Pure.pure, Except.pure] at *
  rw [ha, hb]
  norm_num
  split_ifs with h <;> simp

/-- C9: The buy-price parser maps the raw-currency string `"29800000"` to
2980.0 man-yen (integer parse, divide by 10000, round to one decimal), the
unit-suffixed parser maps `"12.5万円"` to 12.5, and empty or unparseable
inputs map to 0.0 instead of raising. -/
theorem C9_price_normalization :
    parse_buy_price "29800000".toList = 2980
    ∧ parse_price "12.5万円".toList = 12.5
    ∧ parse_buy_price "".toList = 0
    ∧ parse_price "".toList = 0
    ∧ parse_buy_price "abc".toList = 0
    ∧ parse_buy_price "12.5".toList = 0
    ∧ parse_price "abc万円".toList = 0 := by
  refine ⟨?_, ?_, rfl, rfl, rfl, rfl, rfl⟩
  · have h1 : parseIntChars "29800000".toList = .ok 29800000 := rfl
    simp only [parse_buy_price, h1]
    rw [if_neg (by simp)]
    have h2 : ((29800000 : ℤ) : ℚ) / 10000 * 10 = ((29800 : ℤ) : ℚ) := by norm_num
    have h3 : roundHalfEven (((29800 : ℤ) : ℚ)) = 29800 := by
      norm_num [roundHalfEven, Int.floor_intCast]
    rw [pyRound1, h2, h3]
    norm_num
  · have h1 : parseFloatChars "12.5".toList =
        .ok ((digitsToNat ['1', '2'] : ℚ) + (digitsToNat ['5'] : ℚ) / 10 ^ ([('5' : Char)].length)) := rfl
    have h2 : stripWs (str_replace (str_replace "12.5万円".toList "万円".toList []) [','] []) =
        "12.5".toList := rfl
    simp only [parse_price, h2, h1]
    rw [if_neg (by simp), if_pos (by simp)]
    norm_num [catch00, digitsToNat, show ('1' : Char).toNat = 49 from rfl,
      show ('2' : Char).toNat = 50 from rfl, show ('5' : Char).toNat = 53 from rfl]

/-- C1 counterexample: with a requirement set specifying none of
prefecture, city or station, the location similarity of a dict candidate
is 0.0, not the neutral 0.5 stated by the claim. -/
theorem C1_counterexample :
    calculate_location_similarity
        (.dict [("prefecture", .str "東京都".toList), ("city", .str "新宿区".toList)]) []
      ≠ 1/2 := by
  norm_num [calculate_location_similarity, calculate_location_similarity_inner,
    catch05, pyGet, dictGet, pyFloat, List.find?, Bind.bind, Except.bind, Pure.pure,
    Except.pure, truthy]

/-- C1 (amended): in criteria mode, for every dict candidate, if the
requirement set specifies none of prefecture, city or station (each absent
or falsy), the location axis similarity is 0.0 — the code never reaches
its neutral branch here. -/
theorem C1_location_no_target_zero (d : PyDict) (req : PyDict)
    (hp : truthy (dictGet req "prefecture" (.str [])) = false)
    (hc : truthy (dictGet req "city" (.str [])) = false)
    (hs : truthy (dictGet req "station" (.str [])) = false) :
    calculate_location_similarity (.dict d) req = 0 := by
  simp only [calculate_location_similarity, calculate_location_similarity_inner,
    catch05, pyGet, Bind.bind, Except.bind, Pure.pure, Except.pure, hp, hc, hs,
    Bool.false_and, if_false, Bool.false_eq_true]
  norm_num

/-- C1 witness: the amended theorem applied to a concrete candidate and an
empty requirement set. -/
theorem C1_witness :
    calculate_location_similarity
      (.dict [("prefecture", .str "東京都".toList), ("city", .str "新宿区".toList)]) [] = 0 :=
  C1_location_no_target_zero _ [] (by decide) (by decide) (by decide)

/-- C10: in criteria mode the non-positive-price guard takes precedence
over any configured bounds: a candidate whose price field is a non-positive
number (and an absent price field defaults to 0) always scores the neutral
0.5 on the price axis, for every requirement set; the area axis behaves
the same way for non-positive areas. -/
theorem C10_nonpositive_guard :
    (∀ (d : PyDict) (req : PyDict) (p : ℚ),
      dictGet d "price" (.num 0) = .num p → p ≤ 0 →
      calculate_price_similarity (.dict d) req = 1/2)
    ∧ (∀ (d : PyDict) (req : PyDict) (a : ℚ),
      dictGet d "area" (.num 0) = .num a → a ≤ 0 →
      calculate_area_similarity (.dict d) req = 1/2) := by
  constructor
  · intro d req p hd hp
    simp only [calculate_price_similarity, calculate_price_similarity_inner,
      catch05, pyGet, pyFloat, Bind.bind, Except.bind, Pure.pure, Except.pure, hd]
    norm_num [hp]
  · intro d req a hd ha
    simp only [calculate_area_similarity, calculate_area_similarity_inner,
      catch05, pyGet, pyFloat, Bind.bind, Except.bind, Pure.pure, Except.pure, hd]
    norm_num [ha]

/-- C10 witness: negative price and zero (defaulted) area against set
bounds both yield exactly 0.5. -/
theorem C10_witness :
    calculate_price_similarity (.dict [("price", .num (-5))])
        [("price_min", .num 10), ("price_max", .num 20)] = 1/2
    ∧ calculate_area_similarity (.dict []) [("area_min", .num 30)] = 1/2 :=
  ⟨C10_nonpositive_guard.1 _ _ (-5) (by decide) (by norm_num),
   C10_nonpositive_guard.2 _ _ 0 (by decide) (by norm_num)⟩

/-- Deduplication never lengthens a list. -/
lemma dedup_append_length_le (xs : List (List Char)) :
    (dedup_append xs).length ≤ xs.length := by
  have key : ∀ (ys : List (List Char)) (acc : List (List Char)),
      (ys.foldl (fun acc p => if p ∈ acc then acc else acc ++ [p]) acc).length ≤
        acc.length + ys.length := by
    intro ys
    induction ys with
    | nil => intro acc; simp
    | cons y ys ih =>
      intro acc
      have hstep : ((if y ∈ acc then acc else acc ++ [y]) : List (List Char)).length ≤
          acc.length + 1 := by
        split_ifs <;> simp
      have hrec := ih ((if y ∈ acc then acc else acc ++ [y]) : List (List Char))
      simp only [List.foldl_cons, List.length_cons]
      omega
  simpa [dedup_append] using key xs []

/-- C6: whenever the region groups of a non-empty address list span more
than one distinct prefecture (more than one distinct first token among the
group keys), the analyzer reports `needs_clarification = true`, the
clarification message listing each region key with its member count in
first-encountered order, and suggests exactly the group keys. -/
theorem C6_multi_prefecture_clarification (term : List Char) (addrs : List (List Char))
    (hne : addrs ≠ [])
    (hmulti : 1 < (dedup_append ((group_addresses_by_region addrs).map
        (fun g => first_token g.1))).length) :
    analyze_location_ambiguity term addrs =
      ⟨true, some (multiple_prefecture_message term (group_addresses_by_region addrs)),
       (group_addresses_by_region addrs).map (fun g => g.1)⟩ := by
  have hg : 1 < (group_addresses_by_region addrs).length := by
    calc 1 < (dedup_append ((group_addresses_by_region addrs).map
          (fun g => first_token g.1))).length := hmulti
      _ ≤ ((group_addresses_by_region addrs).map (fun g => first_token g.1)).length :=
          dedup_append_length_le _
      _ = (group_addresses_by_region addrs).length := List.length_map _ _
  simp only [analyze_location_ambiguity, handle_multiple_prefectures]
  rw [if_neg hne, if_pos hg, if_pos hmulti]

/-- C6 witness: the §8 example — two Kawasaki addresses and two Kitakyushu
addresses — yields `needs_clarification = true` with exactly 2 suggested
regions. -/
theorem C6_witness :
    (analyze_location_ambiguity kawasaki_term two_prefecture_addresses).needs_clarification
        = true
    ∧ (analyze_location_ambiguity kawasaki_term
        two_prefecture_addresses).suggested_locations.length = 2 := by
  have h := C6_multi_prefecture_clarification kawasaki_term two_prefecture_addresses
    (by decide) (by decide)
  rw [h]
  exact ⟨rfl, by decide⟩

/-- C2 evaluation at the failing input: for five addresses in one
prefecture spread over two cities, the claimed categorical distance
estimate does flag at least 2 pairs further apart than 10.0 km, yet the
analyzer reports no clarification — the `len(location_groups) > 1` early
return routes every multi-group list through the multiple-prefecture
handler (which declines for a single prefecture), so the distance check
only ever runs when all addresses share one (prefecture, city) key, where
every categorical distance is 5.0. -/
theorem C2_code_eval :
    has_distant_locations (calculate_distances_simple
        (single_prefecture_two_city_addresses.take 10)) = true
    ∧ analyze_location_ambiguity kawasaki_term single_prefecture_two_city_addresses =
        ⟨false, none, []⟩ :=
  ⟨by decide, by decide⟩

/-- C7: every per-axis exception is caught and replaced by the neutral 0.5;
scoring a whole dict candidate always succeeds (the per-candidate
computation never raises once the axes are guarded); and a candidate whose
scoring does raise (a non-dict slipping into the batch) is skipped without
aborting the scoring of the candidates before or after it. -/
theorem C7_error_handling :
    (∀ prop req, calculate_location_similarity_inner prop req = .error () →
      calculate_location_similarity prop req = 1/2)
    ∧ (∀ prop req, calculate_price_similarity_inner prop req = .error () →
      calculate_price_similarity prop req = 1/2)
    ∧ (∀ prop req, calculate_layout_similarity_inner prop req = .error () →
      calculate_layout_similarity prop req = 1/2)
    ∧ (∀ prop req, calculate_area_similarity_inner prop req = .error () →
      calculate_area_similarity prop req = 1/2)
    ∧ (∀ prop req, calculate_age_similarity_inner prop req = .error () →
      calculate_age_similarity prop req = 1/2)
    ∧ (∀ prop req, calculate_walk_time_similarity_inner prop req = .error () →
      calculate_walk_time_similarity prop req = 1/2)
    ∧ (∀ prop req, calculate_commute_time_similarity_inner prop req = .error () →
      calculate_commute_time_similarity prop req = 1/2)
    ∧ (∀ (d : PyDict) (req : PyDict),
      score_candidate (.dict d) req =
        .ok ⟨d, total_score (axis_scores (.dict d) req), axis_scores (.dict d) req⟩)
    ∧ (∀ (pre post : List PyObj) (p : PyObj) (req : PyDict),
      score_candidate p req = .error () →
      calculate_similarity_scores (pre ++ p :: post) req =
        calculate_similarity_scores pre req ++ calculate_similarity_scores post req) := by
  refine ⟨fun _ _ h => catch05_error h, fun _ _ h => catch05_error h,
    fun _ _ h => catch05_error h, fun _ _ h => catch05_error h,
    fun _ _ h => catch05_error h, fun _ _ h => catch05_error h,
    fun _ _ h => catch05_error h, fun _ _ => rfl, ?_⟩
  intro pre post p req h
  induction pre with
  | nil =>
    simp only [List.nil_append, calculate_similarity_scores, h]
  | cons q qs ih =>
    simp only [List.cons_append, calculate_similarity_scores]
    cases hq : score_candidate q req with
    | ok e =>
      rw [show qs.append (p :: post) = qs ++ p :: post from rfl, ih]
      simp
    | error u => rw [show qs.append (p :: post) = qs ++ p :: post from rfl, ih]

/-- The decay pattern `max 0.0 (1.0 - d)` of the scorer is in the unit
interval for a nonnegative penalty. -/
lemma decay_in_unit {d : ℚ} (h : 0 ≤ d) : in_unit (max 0.0 (1.0 - d)) := by
  constructor
  · exact le_max_of_le_left (by norm_num)
  · rw [max_le_iff]
    constructor
    · norm_num
    · norm_num
      linarith

/-- The location cap `min s 1.0` is in the unit interval for nonnegative
`s`. -/
lemma min_one_in_unit {s : ℚ} (h : 0 ≤ s) : in_unit (min s 1.0) := by
  constructor
  · apply le_min h
    norm_num
  · calc min s 1.0 ≤ 1.0 := min_le_right s 1.0
      _ ≤ 1 := by norm_num

/-- The criteria-mode location similarity always lies in [0, 1]. -/
lemma location_sim_in_unit (prop : PyObj) (req : PyDict) :
    in_unit (calculate_location_similarity prop req) := by
  apply catch05_in_unit
  intro v hv
  cases prop with
  | scalar s =>
    simp [calculate_location_similarity_inner, pyGet, Bind.bind, Except.bind] at hv
  | dict d =>
    simp only [calculate_location_similarity_inner, pyGet, Bind.bind, Except.bind,
      Pure.pure, Except.pure] at hv
    repeat' split at hv
    all_goals
      first
        | exact Except.noConfusion hv
        | exact hv.elim
        | contradiction
        | ((try injection hv with hv); subst hv;
           first
             | ((constructor <;> norm_num); done)
             | (apply min_one_in_unit; split_ifs <;> norm_num))

set_option maxHeartbeats 2000000 in
/-- The criteria-mode price similarity lies in [0, 1] when the numeric
price bounds are nonnegative. -/
lemma price_sim_in_unit (prop : PyObj) (req : PyDict)
    (h2 : bound_ok (dictGet req "price_max" .pynone) = true) :
    in_unit (calculate_price_similarity prop req) := by
  apply catch05_in_unit
  intro v hv
  cases prop with
  | scalar s =>
    simp [calculate_price_similarity_inner, pyGet, Bind.bind, Except.bind] at hv
  | dict d =>
    simp only [calculate_price_similarity_inner, pyGet, Bind.bind, Except.bind,
      Pure.pure, Except.pure] at hv
    rcases hpf : pyFloat (dictGet d "price" (PyVal.num 0)) with u | p
    · simp only [hpf] at hv
      exact Except.noConfusion hv
    · simp only [hpf] at hv
      rcases hmin : dictGet req "price_min" PyVal.pynone with _ | mn | smin <;>
        rcases hmax : dictGet req "price_max" PyVal.pynone with _ | mx | smax <;>
          simp only [hmin, hmax, bound_ok, decide_eq_true_eq] at h2 hv <;>
          (try simp only [truthy, pyLE, pyLT, pyNumVal, pyDiv] at hv) <;>
          (try split_ifs at hv) <;>
          first
            | exact Except.noConfusion hv
            | exact hv.elim
            | contradiction
            | ((try injection hv with hv); subst hv;
               first
                 | ((constructor <;> norm_num); done)
                 | (apply decay_in_unit; apply div_nonneg <;> linarith))

set_option maxHeartbeats 2000000 in
/-- The criteria-mode area similarity lies in [0, 1] when the numeric
area bounds are nonnegative. -/
lemma area_sim_in_unit (prop : PyObj) (req : PyDict)
    (h2 : bound_ok (dictGet req "area_max" .pynone) = true) :
    in_unit (calculate_area_similarity prop req) := by
  apply catch05_in_unit
  intro v hv
  cases prop with
  | scalar s =>
    simp [calculate_area_similarity_inner, pyGet, Bind.bind, Except.bind] at hv
  | dict d =>
    simp only [calculate_area_similarity_inner, pyGet, Bind.bind, Except.bind,
      Pure.pure, Except.pure] at hv
    rcases hpf : pyFloat (dictGet d "area" (PyVal.num 0)) with u | p
    · simp only [hpf] at hv
      exact Except.noConfusion hv
    · simp only [hpf] at hv
      rcases hmin : dictGet req "area_min" PyVal.pynone with _ | mn | smin <;>
        rcases hmax : dictGet req "area_max" PyVal.pynone with _ | mx | smax <;>
          simp only [hmin, hmax, bound_ok, decide_eq_true_eq] at h2 hv <;>
          (try simp only [truthy, pyLE, pyLT, pyNumVal, pyDiv] at hv) <;>
          (try split_ifs at hv) <;>
          first
            | exact Except.noConfusion hv
            | exact hv.elim
            | contradiction
            | ((try injection hv with hv); subst hv;
               first
                 | ((constructor <;> norm_num); done)
                 | (apply decay_in_unit; apply div_nonneg <;> linarith)
                 | (apply decay_in_unit; apply mul_nonneg;
                    · apply div_nonneg <;> linarith
                    · norm_num))

/-- The criteria-mode age similarity lies in [0, 1] when the numeric
`age_max` bound is nonnegative. -/
lemma age_sim_in_unit (prop : PyObj) (req : PyDict)
    (h2 : bound_ok (dictGet req "age_max" .pynone) = true) :
    in_unit (calculate_age_similarity prop req) := by
  apply catch05_in_unit
  intro v hv
  cases prop with
  | scalar s =>
    simp [calculate_age_similarity_inner, pyGet, Bind.bind, Except.bind] at hv
  | dict d =>
    simp only [calculate_age_similarity_inner, pyGet, Bind.bind, Except.bind,
      Pure.pure, Except.pure] at hv
    rcases hpf : pyFloat (dictGet d "age" (PyVal.num 0)) with u | p
    · simp only [hpf] at hv
      exact Except.noConfusion hv
    · simp only [hpf] at hv
      rcases hmax : dictGet req "age_max" PyVal.pynone with _ | mx | smax <;>
        simp only [hmax, bound_ok, decide_eq_true_eq] at h2 hv <;>
        (try simp only [truthy, pyLE, pyLT, pyNumVal, pyDiv] at hv) <;>
        (try split_ifs at hv) <;>
        first
          | exact Except.noConfusion hv
          | exact hv.elim
          | contradiction
          | ((try injection hv with hv); subst hv;
             first
               | ((constructor <;> norm_num); done)
               | (apply decay_in_unit; apply div_nonneg <;> linarith))

/-- The criteria-mode walk-time similarity lies in [0, 1] when the numeric
`walk_time_max` bound is nonnegative. -/
lemma walk_sim_in_unit (prop : PyObj) (req : PyDict)
    (h2 : bound_ok (dictGet req "walk_time_max" .pynone) = true) :
    in_unit (calculate_walk_time_similarity prop req) := by
  apply catch05_in_unit
  intro v hv
  cases prop with
  | scalar s =>
    simp [calculate_walk_time_similarity_inner, pyGet, Bind.bind, Except.bind] at hv
  | dict d =>
    simp only [calculate_walk_time_similarity_inner, pyGet, Bind.bind, Except.bind,
      Pure.pure, Except.pure] at hv
    rcases hpf : pyFloat (dictGet d "walk_time" (PyVal.num 999)) with u | p
    · simp only [hpf] at hv
      exact Except.noConfusion hv
    · simp only [hpf] at hv
      rcases hmax : dictGet req "walk_time_max" PyVal.pynone with _ | mx | smax <;>
        simp only [hmax, bound_ok, decide_eq_true_eq] at h2 hv <;>
        (try simp only [truthy, pyLE, pyLT, pyNumVal, pyDiv] at hv) <;>
        (try split_ifs at hv) <;>
        first
          | exact Except.noConfusion hv
          | exact hv.elim
          | contradiction
          | ((try injection hv with hv); subst hv;
             first
               | ((constructor <;> norm_num); done)
               | (apply decay_in_unit; apply div_nonneg <;> linarith))

/-- The criteria-mode layout similarity always lies in [0, 1]. -/
lemma layout_sim_in_unit (prop : PyObj) (req : PyDict) :
    in_unit (calculate_layout_similarity prop req) := by
  apply catch05_in_unit
  intro v hv
  cases prop with
  | scalar s =>
    simp [calculate_layout_similarity_inner, pyGet, Bind.bind, Except.bind] at hv
  | dict d =>
    simp only [calculate_layout_similarity_inner, pyGet, Bind.bind, Except.bind,
      Pure.pure, Except.pure] at hv
    repeat' split at hv
    all_goals
      first
        | exact Except.noConfusion hv
        | exact hv.elim
        | contradiction
        | ((try injection hv with hv); subst hv;
           first
             | ((constructor <;> norm_num); done)
             | (apply decay_in_unit; apply mul_nonneg;
                · rw [sub_nonneg]
                  apply Int.cast_le.mpr
                  omega
                · norm_num))

/-- The criteria-mode commute-time similarity always lies in [0, 1]. -/
lemma commute_sim_in_unit (prop : PyObj) (req : PyDict) :
    in_unit (calculate_commute_time_similarity prop req) := by
  apply catch05_in_unit
  intro v hv
  cases prop with
  | scalar s =>
    simp only [calculate_commute_time_similarity_inner, pyGet, Bind.bind, Except.bind,
      Pure.pure, Except.pure] at hv
    repeat' split at hv
    all_goals
      first
        | exact Except.noConfusion hv
        | exact hv.elim
        | contradiction
        | ((try injection hv with hv); subst hv; ((constructor <;> norm_num); done))
  | dict d =>
    simp only [calculate_commute_time_similarity_inner, pyGet, Bind.bind, Except.bind,
      Pure.pure, Except.pure] at hv
    repeat' split at hv
    all_goals
      first
        | exact Except.noConfusion hv
        | exact hv.elim
        | contradiction
        | ((try injection hv with hv); subst hv; ((constructor <;> norm_num); done))

/-- Characterization of the price axis with only a positive lower bound
and a positive candidate price. -/
lemma price_q_min_only (p m : ℚ) (hm : 0 < m) (hp : 0 < p) :
    price_sim_q p (some m) none =
      if m ≤ p then 1 else max 0.0 (1.0 - (m - p)/m) := by
  simp only [price_sim_q, prop_of_price, req_of_price_bounds, calculate_price_similarity,
    calculate_price_similarity_inner, catch05, pyGet, dictGet, pyFloat, List.find?,
    Bind.bind, Except.bind, Pure.pure, Except.pure, truthy, pyLE, pyLT, pyNumVal, pyDiv,
    String.reduceEq]
  norm_num [hp.not_le, hm.ne']
  rw [if_neg (by simp)]
  split_ifs <;> rfl

/-- Characterization of the price axis with only a positive upper bound
and a positive candidate price. -/
lemma price_q_max_only (p M : ℚ) (hM : 0 < M) (hp : 0 < p) :
    price_sim_q p none (some M) =
      if p ≤ M then 1 else max 0.0 (1.0 - (p - M)/M) := by
  simp only [price_sim_q, prop_of_price, req_of_price_bounds, calculate_price_similarity,
    calculate_price_similarity_inner, catch05, pyGet, dictGet, pyFloat, List.find?,
    Bind.bind, Except.bind, Pure.pure, Except.pure, truthy, pyLE, pyLT, pyNumVal, pyDiv,
    String.reduceEq]
  norm_num [hp.not_le, hM.ne']
  rw [if_neg (by simp)]
  split_ifs <;> rfl

/-- Characterization of the price axis with two positive bounds and a
positive candidate price. -/
lemma price_q_both (p m M : ℚ) (hm : 0 < m) (hM : 0 < M) (hp : 0 < p) :
    price_sim_q p (some m) (some M) =
      if m ≤ p ∧ p ≤ M then 1
      else if p < m then max 0.0 (1.0 - (m - p)/m)
      else max 0.0 (1.0 - (p - M)/M) := by
  simp only [price_sim_q, prop_of_price, req_of_price_bounds, calculate_price_similarity,
    calculate_price_similarity_inner, catch05, pyGet, dictGet, pyFloat, List.find?,
    Bind.bind, Except.bind, Pure.pure, Except.pure, truthy, pyLE, pyLT, pyNumVal, pyDiv,
    String.reduceEq]
  norm_num [hp.not_le, hm.ne', hM.ne']
  split_ifs <;> first | rfl | linarith | (exfalso; simp_all) | simp_all

/-- The linear decay is antitone in its (scaled) penalty numerator. -/
lemma decay_mono {c a b : ℚ} (hc : 0 < c) (hab : a ≤ b) :
    max 0.0 (1.0 - b/c) ≤ max 0.0 (1.0 - a/c) := by
  apply max_le_max (le_refl _)
  have h := (div_le_div_right hc).mpr hab
  linarith

/-- C3 counterexample: with `price_min = 10` set, a candidate price of 0
is further below the bound than a price of 0.5, yet the similarity rises
from 0.05 to 0.5 (the non-positive-price guard outranks the decay), so
the similarity is not monotonically non-increasing as the price moves
further outside the range. -/
theorem C3_counterexample :
    price_sim_q 0 (some 10) none > price_sim_q (1/2) (some 10) none := by
  have h0 : price_sim_q 0 (some 10) none = 1/2 := by
    norm_num [price_sim_q, prop_of_price, req_of_price_bounds, calculate_price_similarity,
      calculate_price_similarity_inner, catch05, pyGet, dictGet, pyFloat, List.find?,
      Bind.bind, Except.bind, Pure.pure, Except.pure]
  have hh : price_sim_q (1/2) (some 10) none = 1/20 := by
    rw [price_q_min_only (1/2) 10 (by norm_num) (by norm_num)]
    norm_num
  rw [h0, hh]
  norm_num

/-- C3 (amended): in criteria mode, with at least one price bound set,
each set bound positive, the bounds ordered, and restricted to positive
candidate prices (the non-positive-price guard returns a fixed 0.5 before
the bounds are consulted, see the counterexample), the price similarity
lies in [0, 1] everywhere, is monotonically non-decreasing in the price
below `price_min`, and is monotonically non-increasing in the price above
`price_max`. -/
theorem C3_price_monotone_amended (mn mx : Option ℚ)
    (hset : mn.isSome ∨ mx.isSome)
    (hmn : ∀ m, mn = some m → 0 < m)
    (hmx : ∀ M, mx = some M → 0 < M)
    (hord : ∀ m M, mn = some m → mx = some M → m ≤ M) :
    (∀ p : ℚ, in_unit (price_sim_q p mn mx))
    ∧ (∀ m, mn = some m → ∀ p₁ p₂ : ℚ, 0 < p₂ → p₂ ≤ p₁ → p₁ ≤ m →
        price_sim_q p₂ mn mx ≤ price_sim_q p₁ mn mx)
    ∧ (∀ M, mx = some M → ∀ p₁ p₂ : ℚ, M ≤ p₁ → p₁ ≤ p₂ →
        price_sim_q p₂ mn mx ≤ price_sim_q p₁ mn mx) := by
  have hbok : bound_ok (dictGet (req_of_price_bounds mn mx) "price_max" .pynone) = true := by
    rcases mx with _ | M
    · rcases mn with _ | m <;> rfl
    · have hM := (hmx M rfl).le
      rcases mn with _ | m <;>
        simp [req_of_price_bounds, dictGet, bound_ok, List.find?, hM]
  have hrange : ∀ p : ℚ, in_unit (price_sim_q p mn mx) := fun p =>
    price_sim_in_unit _ _ hbok
  refine ⟨hrange, ?_, ?_⟩
  · rintro m rfl p₁ p₂ hp2 h21 h1m
    have hm := hmn m rfl
    have hp1 : 0 < p₁ := lt_of_lt_of_le hp2 h21
    by_cases h1 : m ≤ p₁
    · have h1v : price_sim_q p₁ (some m) mx = 1 := by
        rcases mx with _ | M
        · rw [price_q_min_only p₁ m hm hp1, if_pos h1]
        · have hM := hmx M rfl
          have hmM := hord m M rfl rfl
          rw [price_q_both p₁ m M hm hM hp1, if_pos ⟨h1, by linarith⟩]
      rw [h1v]
      exact (hrange p₂).2
    · have hlt1 : p₁ < m := lt_of_not_le h1
      have hlt2 : p₂ < m := lt_of_le_of_lt h21 hlt1
      rcases mx with _ | M
      · rw [price_q_min_only p₁ m hm hp1, price_q_min_only p₂ m hm hp2,
          if_neg (not_le.mpr hlt1), if_neg (not_le.mpr hlt2)]
        exact decay_mono hm (by linarith)
      · have hM := hmx M rfl
        rw [price_q_both p₁ m M hm hM hp1, price_q_both p₂ m M hm hM hp2,
          if_neg (show ¬(m ≤ p₁ ∧ p₁ ≤ M) from fun hc => h1 hc.1), if_pos hlt1,
          if_neg (show ¬(m ≤ p₂ ∧ p₂ ≤ M) from fun hc => absurd hc.1 (not_le.mpr hlt2)),
          if_pos hlt2]
        exact decay_mono hm (by linarith)
  · rintro M rfl p₁ p₂ hM1 h12
    have hM := hmx M rfl
    have hp1 : 0 < p₁ := lt_of_lt_of_le hM hM1
    have hp2 : 0 < p₂ := lt_of_lt_of_le hp1 h12
    by_cases h1 : p₁ ≤ M
    · have h1v : price_sim_q p₁ mn (some M) = 1 := by
        rcases mn with _ | m
        · rw [price_q_max_only p₁ M hM hp1, if_pos h1]
        · have hm := hmn m rfl
          have hmM := hord m M rfl rfl
          rw [price_q_both p₁ m M hm hM hp1, if_pos ⟨by linarith, h1⟩]
      rw [h1v]
      exact (hrange p₂).2
    · have hlt1 : M < p₁ := lt_of_not_le h1
      have hlt2 : M < p₂ := lt_of_lt_of_le hlt1 h12
      rcases mn with _ | m
      · rw [price_q_max_only p₁ M hM hp1, price_q_max_only p₂ M hM hp2,
          if_neg (not_le.mpr hlt1), if_neg (not_le.mpr hlt2)]
        exact decay_mono hM (by linarith)
      · have hm := hmn m rfl
        have hmM := hord m M rfl rfl
        rw [price_q_both p₁ m M hm hM hp1, price_q_both p₂ m M hm hM hp2,
          if_neg (show ¬(m ≤ p₁ ∧ p₁ ≤ M) from fun hc => absurd hc.2 (not_le.mpr hlt1)),
          if_neg (show ¬(p₁ < m) from not_lt.mpr (by linarith)),
          if_neg (show ¬(m ≤ p₂ ∧ p₂ ≤ M) from fun hc => absurd hc.2 (not_le.mpr hlt2)),
          if_neg (show ¬(p₂ < m) from not_lt.mpr (by linarith))]
        exact decay_mono hM (by linarith)

/-- C3 witness: with `price_min = 10`, prices 2 ≤ 5 below the bound score
monotonically, and every price scores within [0, 1]. -/
theorem C3_witness :
    price_sim_q 2 (some 10) none ≤ price_sim_q 5 (some 10) none
    ∧ in_unit (price_sim_q 7 (some 10) none) := by
  have h := C3_price_monotone_amended (some 10) none (Or.inl rfl)
    (by rintro m hm; injection hm with hm; subst hm; norm_num)
    (by rintro M hM; cases hM)
    (by rintro m M hm hM; cases hM)
  exact ⟨h.2.1 10 rfl 5 2 (by norm_num) (by norm_num) (by norm_num), h.1 7⟩

/-- C7 witness: an unparseable price string errors inside the price axis
and is neutralized to 0.5, and a non-dict candidate in the middle of a
batch is skipped while both neighbours are still scored. -/
theorem C7_witness :
    calculate_price_similarity (.dict [("price", .str "abc".toList)])
        [("price_min", .num 10)] = 1/2
    ∧ calculate_similarity_scores
        ([PyObj.dict []] ++ PyObj.scalar (PyVal.num 1) :: [PyObj.dict []]) []
      = calculate_similarity_scores [PyObj.dict []] [] ++
          calculate_similarity_scores [PyObj.dict []] [] :=
  ⟨C7_error_handling.2.1 _ _ rfl,
   C7_error_handling.2.2.2.2.2.2.2.2 [PyObj.dict []] [PyObj.dict []] _ [] rfl⟩


/-- The reference-mode location similarity always lies in [0, 1]. -/
lemma location_ref_in_unit (prop : PyObj) (ref : PyDict) :
    in_unit (calculate_location_similarity_reference prop ref) := by
  apply catch05_in_unit
  intro v hv
  cases prop with
  | scalar s =>
    simp [calculate_location_similarity_reference_inner, pyGet, Bind.bind, Except.bind] at hv
  | dict d =>
    simp only [calculate_location_similarity_reference_inner, pyGet, Bind.bind, Except.bind,
      Pure.pure, Except.pure] at hv
    repeat' split at hv
    all_goals
      first
        | exact Except.noConfusion hv
        | exact hv.elim
        | contradiction
        | ((try injection hv with hv); subst hv; ((constructor <;> norm_num); done))

/-- The reference-mode price similarity always lies in [0, 1]. -/
lemma price_ref_in_unit (prop : PyObj) (ref : PyDict) :
    in_unit (calculate_price_similarity_reference prop ref) := by
  apply catch05_in_unit
  intro v hv
  cases prop with
  | scalar s =>
    simp [calculate_price_similarity_reference_inner, pyGet, Bind.bind, Except.bind] at hv
  | dict d =>
    simp only [calculate_price_similarity_reference_inner, pyGet, Bind.bind, Except.bind,
      Pure.pure, Except.pure] at hv
    rcases hp : pyFloat (dictGet d "price" (PyVal.num 0)) with u | p
    · simp only [hp] at hv
      exact Except.noConfusion hv
    · simp only [hp] at hv
      rcases hr : pyFloat (dictGet ref "price" (PyVal.num 0)) with u | r
      · simp only [hr] at hv
        exact Except.noConfusion hv
      · simp only [hr] at hv
        by_cases hg : p ≤ 0 ∨ r ≤ 0
        · rw [if_pos hg] at hv
          injection hv with hv
          subst hv
          constructor <;> norm_num
        · rw [if_neg hg] at hv
          push_neg at hg
          simp only [pyDiv_ne hg.2.ne'] at hv
          split_ifs at hv <;> (injection hv with hv; subst hv)
          · constructor <;> norm_num
          · exact decay_in_unit (div_nonneg (abs_nonneg _) (le_of_lt hg.2))

/-- The reference-mode layout similarity always lies in [0, 1]. -/
lemma layout_ref_in_unit (prop : PyObj) (ref : PyDict) :
    in_unit (calculate_layout_similarity_reference prop ref) := by
  apply catch05_in_unit
  intro v hv
  cases prop with
  | scalar s =>
    simp [calculate_layout_similarity_reference_inner, pyGet, Bind.bind, Except.bind] at hv
  | dict d =>
    simp only [calculate_layout_similarity_reference_inner, pyGet, Bind.bind, Except.bind,
      Pure.pure, Except.pure] at hv
    repeat' split at hv
    all_goals
      first
        | exact Except.noConfusion hv
        | exact hv.elim
        | contradiction
        | ((try injection hv with hv); subst hv; ((constructor <;> norm_num); done))

/-- The reference-mode area similarity always lies in [0, 1]. -/
lemma area_ref_in_unit (prop : PyObj) (ref : PyDict) :
    in_unit (calculate_area_similarity_reference prop ref) := by
  apply catch05_in_unit
  intro v hv
  cases prop with
  | scalar s =>
    simp [calculate_area_similarity_reference_inner, pyGet, Bind.bind, Except.bind] at hv
  | dict d =>
    simp only [calculate_area_similarity_reference_inner, pyGet, Bind.bind, Except.bind,
      Pure.pure, Except.pure] at hv
    rcases hp : pyFloat (dictGet d "area" (PyVal.num 0)) with u | p
    · simp only [hp] at hv
      exact Except.noConfusion hv
    · simp only [hp] at hv
      rcases hr : pyFloat (dictGet ref "area" (PyVal.num 0)) with u | r
      · simp only [hr] at hv
        exact Except.noConfusion hv
      · simp only [hr] at hv
        by_cases hg : p ≤ 0 ∨ r ≤ 0
        · rw [if_pos hg] at hv
          injection hv with hv
          subst hv
          constructor <;> norm_num
        · rw [if_neg hg] at hv
          push_neg at hg
          simp only [pyDiv_ne hg.2.ne'] at hv
          split_ifs at hv <;> (injection hv with hv; subst hv)
          · constructor <;> norm_num
          · exact decay_in_unit (div_nonneg (abs_nonneg _) (le_of_lt hg.2))

/-- The reference-mode age similarity always lies in [0, 1]. -/
lemma age_ref_in_unit (prop : PyObj) (ref : PyDict) :
    in_unit (calculate_age_similarity_reference prop ref) := by
  apply catch05_in_unit
  intro v hv
  cases prop with
  | scalar s =>
    simp [calculate_age_similarity_reference_inner, pyGet, Bind.bind, Except.bind] at hv
  | dict d =>
    simp only [calculate_age_similarity_reference_inner, pyGet, Bind.bind, Except.bind,
      Pure.pure, Except.pure] at hv
    rcases hp : pyFloat (dictGet d "age" (PyVal.num 0)) with u | p
    · simp only [hp] at hv
      exact Except.noConfusion hv
    · simp only [hp] at hv
      rcases hr : pyFloat (dictGet ref "age" (PyVal.num 0)) with u | r
      · simp only [hr] at hv
        exact Except.noConfusion hv
      · simp only [hr] at hv
        split_ifs at hv <;>
          ((try injection hv with hv); subst hv;
           first
             | ((constructor <;> norm_num); done)
             | (apply decay_in_unit; apply div_nonneg;
                · exact abs_nonneg _
                · norm_num))

/-- The reference-mode walk-time similarity always lies in [0, 1]. -/
lemma walk_ref_in_unit (prop : PyObj) (ref : PyDict) :
    in_unit (calculate_walk_time_similarity_reference prop ref) := by
  apply catch05_in_unit
  intro v hv
  cases prop with
  | scalar s =>
    simp [calculate_walk_time_similarity_reference_inner, pyGet, Bind.bind, Except.bind] at hv
  | dict d =>
    simp only [calculate_walk_time_similarity_reference_inner, pyGet, Bind.bind, Except.bind,
      Pure.pure, Except.pure] at hv
    rcases hp : pyFloat (dictGet d "walk_time" (PyVal.num 999)) with u | p
    · simp only [hp] at hv
      exact Except.noConfusion hv
    · simp only [hp] at hv
      rcases hr : pyFloat (dictGet ref "walk_time" (PyVal.num 999)) with u | r
      · simp only [hr] at hv
        exact Except.noConfusion hv
      · simp only [hr] at hv
        split_ifs at hv <;>
          ((try injection hv with hv); subst hv;
           first
             | ((constructor <;> norm_num); done)
             | (apply decay_in_unit; apply div_nonneg;
                · exact abs_nonneg _
                · norm_num))

/-- A weighted sum over the seven axes with the scorer weights stays in
the unit interval when every axis similarity does. -/
lemma total_score_in_unit {s : AxisScores} (h : axes_in_unit s) :
    in_unit (total_score s) := by
  obtain ⟨⟨l0, l1⟩, ⟨p0, p1⟩, ⟨y0, y1⟩, ⟨a0, a1⟩, ⟨g0, g1⟩, ⟨w0, w1⟩, ⟨c0, c1⟩⟩ := h
  constructor
  · have t1 : (0:ℚ) ≤ s.location * 0.25 := mul_nonneg l0 (by norm_num)
    have t2 : (0:ℚ) ≤ s.price * 0.20 := mul_nonneg p0 (by norm_num)
    have t3 : (0:ℚ) ≤ s.layout * 0.15 := mul_nonneg y0 (by norm_num)
    have t4 : (0:ℚ) ≤ s.area * 0.15 := mul_nonneg a0 (by norm_num)
    have t5 : (0:ℚ) ≤ s.age * 0.10 := mul_nonneg g0 (by norm_num)
    have t6 : (0:ℚ) ≤ s.walk_time * 0.10 := mul_nonneg w0 (by norm_num)
    have t7 : (0:ℚ) ≤ s.commute_time * 0.05 := mul_nonneg c0 (by norm_num)
    unfold total_score
    linarith
  · have t1 : s.location * 0.25 ≤ 1 * 0.25 := mul_le_mul_of_nonneg_right l1 (by norm_num)
    have t2 : s.price * 0.20 ≤ 1 * 0.20 := mul_le_mul_of_nonneg_right p1 (by norm_num)
    have t3 : s.layout * 0.15 ≤ 1 * 0.15 := mul_le_mul_of_nonneg_right y1 (by norm_num)
    have t4 : s.area * 0.15 ≤ 1 * 0.15 := mul_le_mul_of_nonneg_right a1 (by norm_num)
    have t5 : s.age * 0.10 ≤ 1 * 0.10 := mul_le_mul_of_nonneg_right g1 (by norm_num)
    have t6 : s.walk_time * 0.10 ≤ 1 * 0.10 := mul_le_mul_of_nonneg_right w1 (by norm_num)
    have t7 : s.commute_time * 0.05 ≤ 1 * 0.05 := mul_le_mul_of_nonneg_right c1 (by norm_num)
    unfold total_score
    linarith

/-- C5 counterexample: against a (nonsensical but unvalidated) negative
`price_max`, a positive candidate price scores 4.0 on the price axis — the
code never clamps an axis similarity to [0, 1] before weighting, so the
claim that every per-axis similarity lies in [0.0, 1.0] is false as
stated. -/
theorem C5_counterexample :
    calculate_price_similarity (.dict [("price", .num 6)]) [("price_max", .num (-3))] = 4
    ∧ ¬ in_unit (calculate_price_similarity (.dict [("price", .num 6)])
        [("price_max", .num (-3))]) := by
  have h : calculate_price_similarity (.dict [("price", .num 6)]) [("price_max", .num (-3))]
      = 4 := by
    simp only [calculate_price_similarity, calculate_price_similarity_inner, catch05, pyGet,
      dictGet, pyFloat, List.find?, Bind.bind, Except.bind, Pure.pure, Except.pure,
      truthy, pyLE, pyLT, pyNumVal, pyDiv, String.reduceEq]
    norm_num
    rw [if_neg (by simp)]
  refine ⟨h, ?_⟩
  rw [h, in_unit]
  norm_num

/-- C5 (amended): the seven axis weights sum to 1.0 and the same constant
weight map drives both scoring modes; for every candidate, every
criteria-mode axis similarity lies in [0.0, 1.0] provided the set numeric
constraint bounds are nonnegative (the counterexample shows a negative
bound breaks this), every reference-mode axis similarity lies in
[0.0, 1.0] unconditionally, and consequently the weighted total score
over always all seven axes lies in [0.0, 1.0] in both modes. -/
theorem C5_weights_and_ranges :
    (feature_weights.map Prod.snd).sum = 1
    ∧ (∀ (prop : PyObj) (req : PyDict), nonneg_bounds req →
        axes_in_unit (axis_scores prop req)
        ∧ in_unit (total_score (axis_scores prop req)))
    ∧ (∀ (prop : PyObj) (ref : PyDict),
        axes_in_unit (axis_scores_reference prop ref)
        ∧ in_unit (total_score (axis_scores_reference prop ref))) := by
  refine ⟨by norm_num [feature_weights], ?_, ?_⟩
  · intro prop req hb
    obtain ⟨b1, b2, b3, b4, b5, b6⟩ := hb
    have hx : axes_in_unit (axis_scores prop req) :=
      ⟨location_sim_in_unit prop req, price_sim_in_unit prop req b2,
       layout_sim_in_unit prop req, area_sim_in_unit prop req b4,
       age_sim_in_unit prop req b5, walk_sim_in_unit prop req b6,
       commute_sim_in_unit prop req⟩
    exact ⟨hx, total_score_in_unit hx⟩
  · intro prop ref
    have hx : axes_in_unit (axis_scores_reference prop ref) :=
      ⟨location_ref_in_unit prop ref, price_ref_in_unit prop ref,
       layout_ref_in_unit prop ref, area_ref_in_unit prop ref,
       age_ref_in_unit prop ref, walk_ref_in_unit prop ref,
       ⟨by norm_num [axis_scores_reference], by norm_num [axis_scores_reference]⟩⟩
    exact ⟨hx, total_score_in_unit hx⟩

/-- C5 witness: a concrete candidate against nonnegative bounds has all
axis similarities and the total score inside [0, 1], in both modes. -/
theorem C5_witness :
    in_unit (total_score (axis_scores
      (.dict [("price", PyVal.num 3000), ("area", PyVal.num 70)])
      [("price_min", PyVal.num 2000), ("price_max", PyVal.num 4000)]))
    ∧ in_unit (total_score (axis_scores_reference
      (.dict [("price", PyVal.num 3000)]) [("price", PyVal.num 2900)])) :=
  ⟨(C5_weights_and_ranges.2.1
      (.dict [("price", PyVal.num 3000), ("area", PyVal.num 70)])
      [("price_min", PyVal.num 2000), ("price_max", PyVal.num 4000)]
      ⟨rfl, rfl, rfl, rfl, rfl, rfl⟩).2,
   (C5_weights_and_ranges.2.2
      (.dict [("price", PyVal.num 3000)]) [("price", PyVal.num 2900)]).2⟩


/-- Inserting into the stable descending sort adds one element. -/
lemma insort_length (x : ScoredEntry) (l : List ScoredEntry) :
    (insort_desc x l).length = l.length + 1 := by
  induction l with
  | nil => rfl
  | cons y ys ih =>
    simp only [insort_desc]
    split_ifs <;> simp [ih]

/-- The stable descending sort preserves length. -/
lemma sort_desc_length (l : List ScoredEntry) : (sort_desc l).length = l.length := by
  induction l with
  | nil => rfl
  | cons x xs ih => simp [sort_desc, insort_length, ih]

/-- Members of an insertion are the inserted element or old members. -/
lemma mem_insort {x a : ScoredEntry} {l : List ScoredEntry}
    (h : a ∈ insort_desc x l) : a = x ∨ a ∈ l := by
  induction l with
  | nil => simpa [insort_desc] using h
  | cons y ys ih =>
    simp only [insort_desc] at h
    split_ifs at h with hxy
    · rcases List.mem_cons.mp h with rfl | h2
      · exact Or.inr (List.mem_cons_self _ _)
      · rcases ih h2 with rfl | h3
        · exact Or.inl rfl
        · exact Or.inr (List.mem_cons_of_mem _ h3)
    · rcases List.mem_cons.mp h with rfl | h2
      · exact Or.inl rfl
      · exact Or.inr h2

/-- Insertion preserves descending sortedness. -/
lemma insort_sorted (x : ScoredEntry) (l : List ScoredEntry)
    (hl : l.Pairwise (fun a b => b.score ≤ a.score)) :
    (insort_desc x l).Pairwise (fun a b => b.score ≤ a.score) := by
  induction l with
  | nil => simp [insort_desc]
  | cons y ys ih =>
    rcases List.pairwise_cons.mp hl with ⟨hy, hys⟩
    simp only [insort_desc]
    split_ifs with hxy
    · apply List.pairwise_cons.mpr
      refine ⟨?_, ih hys⟩
      intro a ha
      rcases mem_insort ha with rfl | ha2
      · exact le_of_lt hxy
      · exact hy a ha2
    · apply List.pairwise_cons.mpr
      refine ⟨?_, hl⟩
      intro a ha
      rcases List.mem_cons.mp ha with rfl | ha2
      · exact not_lt.mp hxy
      · exact le_trans (hy a ha2) (not_lt.mp hxy)

/-- The stable descending sort is sorted by score, descending. -/
lemma sort_desc_sorted (l : List ScoredEntry) :
    (sort_desc l).Pairwise (fun a b => b.score ≤ a.score) := by
  induction l with
  | nil => simp [sort_desc]
  | cons x xs ih => exact insort_sorted x _ ih

/-- Swapping two adjacent entries with strictly different scores does not
change the sublist of entries at any one score. -/
lemma filter_swap_of_lt {x y : ScoredEntry} (h : x.score < y.score)
    (l : List ScoredEntry) (q : ℚ) :
    (x :: y :: l).filter (fun e => decide (e.score = q)) =
      (y :: x :: l).filter (fun e => decide (e.score = q)) := by
  by_cases hx : x.score = q
  · have hy : ¬ y.score = q := fun hy => absurd h (by rw [hx, hy]; exact lt_irrefl q)
    simp [List.filter_cons, hx, hy]
  · by_cases hy : y.score = q <;> simp [List.filter_cons, hx, hy]

/-- Stability of one insertion: the inserted element is placed before
exactly the strictly-smaller scores, so the entries at any one score keep
their order relative to consing in front. -/
lemma insort_filter (x : ScoredEntry) (l : List ScoredEntry) (q : ℚ) :
    (insort_desc x l).filter (fun e => decide (e.score = q)) =
      ((x :: l).filter (fun e => decide (e.score = q))) := by
  induction l with
  | nil => rfl
  | cons y ys ih =>
    simp only [insort_desc]
    split_ifs with hxy
    · rw [filter_swap_of_lt hxy ys q]
      simp only [List.filter_cons]
      rw [ih, List.filter_cons]
    · rfl

/-- Stability of the whole sort: at every score value, the sorted list
lists exactly the input entries in input order. -/
lemma sort_desc_filter (l : List ScoredEntry) (q : ℚ) :
    (sort_desc l).filter (fun e => decide (e.score = q)) =
      l.filter (fun e => decide (e.score = q)) := by
  induction l with
  | nil => rfl
  | cons x xs ih =>
    rw [show sort_desc (x :: xs) = insort_desc x (sort_desc xs) from rfl, insort_filter,
      List.filter_cons, List.filter_cons, ih]

/-- When every candidate is a dict, no candidate fails scoring and the
scored list has one entry per candidate. -/
lemma calc_scores_length (props : List PyObj) (req : PyDict)
    (h : ∀ p ∈ props, is_dict_obj p = true) :
    (calculate_similarity_scores props req).length = props.length := by
  induction props with
  | nil => rfl
  | cons p ps ih =>
    cases p with
    | scalar s => exact absurd (h _ (List.mem_cons_self _ _)) (by simp [is_dict_obj])
    | dict d =>
      simp only [calculate_similarity_scores, score_candidate]
      rw [List.length_cons, List.length_cons,
        ih (fun p hp => h p (List.mem_cons_of_mem _ hp))]

/-- C4: the ranking pipeline returns a list sorted in descending order of
total similarity score; at every score value the retained entries form a
sublist of the scored input (equal scores keep their input order —
stability); the output never exceeds `limit` elements and contains exactly
`min limit (number of candidates)` entries when no candidate fails scoring
(every candidate a dict). -/
theorem C4_rank_sorted_stable_length (props : List PyObj) (req : PyDict) (limit : ℕ) :
    (find_matching_properties props req limit).Pairwise (fun a b => b.score ≤ a.score)
    ∧ (∀ q : ℚ, List.Sublist
        ((find_matching_properties props req limit).filter (fun e => decide (e.score = q)))
        ((calculate_similarity_scores props req).filter (fun e => decide (e.score = q))))
    ∧ (find_matching_properties props req limit).length ≤ limit
    ∧ ((∀ p ∈ props, is_dict_obj p = true) →
        (find_matching_properties props req limit).length = min limit props.length) := by
  refine ⟨?_, ?_, ?_, ?_⟩
  · exact List.Pairwise.sublist (List.take_sublist _ _) (sort_desc_sorted _)
  · intro q
    have h1 := (List.take_sublist limit
      (sort_desc (calculate_similarity_scores props req))).filter
      (fun e => decide (e.score = q))
    rw [sort_desc_filter] at h1
    exact h1
  · simp [find_matching_properties, List.length_take]
  · intro h
    simp [find_matching_properties, List.length_take, sort_desc_length,
      calc_scores_length props req h]

/-- C4 witness: two dict candidates with limit 3 rank to exactly
`min 3 2 = 2` entries. -/
theorem C4_witness :
    (find_matching_properties [PyObj.dict [], PyObj.dict []] [] 3).length = min 3 2 :=
  (C4_rank_sorted_stable_length [PyObj.dict [], PyObj.dict []] [] 3).2.2.2 (by decide)

end Sumai
